import Mathlib

/-!
Verification of the AIStoryTeller serverless pipeline: a shallow embedding of
the async job monitors, the artifact locator, the request handlers and the
story-step generator, together with theorems settling the specification
claims about them.

External services (Bedrock status queries, S3 head-object existence checks,
MediaConvert job status, the text model) are modelled as oracle parameters:
a status query is a function from the poll index to the observed response,
and an existence check is a function from candidate key and attempt index
to a boolean.  Wall-clock time is modelled by counting sleeps: after k
sleeps of pollInterval seconds, elapsed time is k * pollInterval.
-/

/-! ## Async Job Monitor (vg.py / VideoGeneratorFunction.py / story-video-final.py) -/

/-- Result of one status query against the Bedrock get_async_invoke API:
either a status string, or a raised exception with its message. -/
inductive QueryResult where
  | ok (status : String)
  | err (msg : String)
deriving DecidableEq

/-- Raw outcome of the polling loop in monitor_video_generation, before the
post-loop classification.  The index k records the loop iteration at which
the loop ended: k sleeps have occurred and k + 1 queries have been issued. -/
inductive RawOut where
  | terminal (status : String) (k : Nat)
  | timeout (k : Nat)
  | error (msg : String) (k : Nat)
deriving DecidableEq

/-- Iteration index at which the loop ended. -/
def RawOut.iter : RawOut → Nat
  | RawOut.terminal _ k => k
  | RawOut.timeout k => k
  | RawOut.error _ k => k

/-- Status string the monitor will report for a raw outcome. -/
def RawOut.statusStr : RawOut → String
  | RawOut.terminal s _ => s
  | RawOut.timeout _ => "Timeout"
  | RawOut.error _ _ => "Error"

/-- The while-True polling loop of monitor_video_generation (vg.py lines
118-135).  Each iteration queries the status; an exception returns Error, a
non-InProgress status breaks the loop, otherwise the elapsed-time ceiling is
checked (elapsed after k sleeps is k * sleep seconds) and the loop sleeps and
repeats.  The fuel argument bounds the recursion; none models a loop that
would run past the fuel, and is proved unreachable for positive sleep when
the fuel is maxTime + 1. -/
def monitorAux (query : Nat → QueryResult) (maxTime sleep : Nat) :
    Nat → Nat → Option RawOut
  | 0, k =>
    match query k with
    | QueryResult.err e => some (RawOut.error e k)
    | QueryResult.ok s =>
      if s = "InProgress" then
        if k * sleep > maxTime then some (RawOut.timeout k) else none
      else some (RawOut.terminal s k)
  | fuel + 1, k =>
    match query k with
    | QueryResult.err e => some (RawOut.error e k)
    | QueryResult.ok s =>
      if s = "InProgress" then
        if k * sleep > maxTime then some (RawOut.timeout k)
        else monitorAux query maxTime sleep fuel (k + 1)
      else some (RawOut.terminal s k)

/-- Final answer of monitor_video_generation: the reported status, the
reported output location, and the number of queries and sleeps performed. -/
structure MonRes where
  status : String
  output : Option String
  queries : Nat
  sleeps : Nat
deriving DecidableEq

/-- Post-loop classification of vg.py monitor_video_generation: Timeout and
Error return the job folder location, a terminal status returns the
output.mp4 location exactly when the status is Completed. -/
def vgFinish (s3loc : String) : RawOut → MonRes
  | RawOut.terminal s k =>
      ⟨s, if s = "Completed" then some (s3loc ++ "/output.mp4") else none, k + 1, k⟩
  | RawOut.timeout k => ⟨"Timeout", some s3loc, k + 1, k⟩
  | RawOut.error _ k => ⟨"Error", some s3loc, k + 1, k⟩

/-- Splitting a character list at every slash, as Python str.split("/")
does (structurally recursive so that it evaluates inside the kernel). -/
def splitSlash : List Char → List String
  | [] => [""]
  | c :: cs =>
    let r := splitSlash cs
    if c = '/' then "" :: r
    else
      match r with
      | [] => [String.mk [c]]
      | h :: t => String.mk (c :: h.data) :: t

/-- invocation_arn.split("/")[-1] from vg.py line 112. -/
def jobIdOfArn (arn : String) : String := (splitSlash arn.data).getLastD ("")

/-- monitor_video_generation from vg.py lines 111-138, parametrised by the
status-query oracle, the time ceiling and the poll interval (the source
fixes maxTime = 900 and sleep = 15 via module constants). -/
def monitor_video_generation (query : Nat → QueryResult) (maxTime sleep : Nat)
    (invocationArn outputBucket : String) : Option MonRes :=
  (monitorAux query maxTime sleep (maxTime + 1) 0).map
    (vgFinish ("s3://" ++ outputBucket ++ "/" ++ jobIdOfArn invocationArn))

/-! ### Basic lemmas about the polling loop -/

/-- The loop terminates (the fuel is not exhausted) whenever the timeout
ceiling is certain to be crossed within the available fuel. -/
theorem monitorAux_isSome (query : Nat → QueryResult) (maxTime sleep : Nat) :
    ∀ fuel k, maxTime < (k + fuel) * sleep →
      (monitorAux query maxTime sleep fuel k).isSome := by
  intro fuel
  induction fuel with
  | zero =>
    intro k hk
    simp only [Nat.add_zero] at hk
    simp only [monitorAux]
    cases query k with
    | err e => simp
    | ok s =>
      by_cases hs : s = "InProgress"
      · simp [hs, Nat.lt_iff_add_one_le.mp hk, hk]
      · simp [hs]
  | succ fuel ih =>
    intro k hk
    simp only [monitorAux]
    cases query k with
    | err e => simp
    | ok s =>
      by_cases hs : s = "InProgress"
      · by_cases ht : k * sleep > maxTime
        · simp [hs, ht]
        · have : maxTime < (k + 1 + fuel) * sleep := by
            have : k + 1 + fuel = k + (fuel + 1) := by omega
            rw [this]; exact hk
          simp [hs, ht, ih (k + 1) this]
      · simp [hs]

/-- Whatever the loop returns, the reported status is never the in-progress
sentinel. -/
theorem monitorAux_not_inprogress (query : Nat → QueryResult) (maxTime sleep : Nat) :
    ∀ fuel k r, monitorAux query maxTime sleep fuel k = some r →
      r.statusStr ≠ "InProgress" := by
  intro fuel
  induction fuel with
  | zero =>
    intro k r hr
    cases hq : query k with
    | err e =>
      simp only [monitorAux, hq, Option.some.injEq] at hr
      subst hr; simp [RawOut.statusStr]
    | ok s =>
      by_cases hs : s = "InProgress"
      · subst hs
        by_cases ht : k * sleep > maxTime
        · simp [monitorAux, hq, ht] at hr
          subst hr; simp [RawOut.statusStr]
        · simp [monitorAux, hq, ht] at hr
      · simp [monitorAux, hq, hs] at hr
        subst hr; simpa [RawOut.statusStr] using hs
  | succ fuel ih =>
    intro k r hr
    cases hq : query k with
    | err e =>
      simp only [monitorAux, hq, Option.some.injEq] at hr
      subst hr; simp [RawOut.statusStr]
    | ok s =>
      by_cases hs : s = "InProgress"
      · subst hs
        by_cases ht : k * sleep > maxTime
        · simp [monitorAux, hq, ht] at hr
          subst hr; simp [RawOut.statusStr]
        · simp [monitorAux, hq, ht] at hr
          exact ih (k + 1) r hr
      · simp [monitorAux, hq, hs] at hr
        subst hr; simpa [RawOut.statusStr] using hs

/-- The loop never runs past the ceiling by more than one poll interval:
if iteration k is reachable with k * sleep within maxTime + sleep, the
iteration at which the loop ends also satisfies that bound. -/
theorem monitorAux_iter_bound (query : Nat → QueryResult) (maxTime sleep : Nat) :
    ∀ fuel k r, k * sleep ≤ maxTime + sleep →
      monitorAux query maxTime sleep fuel k = some r →
      r.iter * sleep ≤ maxTime + sleep := by
  intro fuel
  induction fuel with
  | zero =>
    intro k r hk hr
    cases hq : query k with
    | err e =>
      simp only [monitorAux, hq, Option.some.injEq] at hr
      subst hr; simpa [RawOut.iter] using hk
    | ok s =>
      by_cases hs : s = "InProgress"
      · subst hs
        by_cases ht : k * sleep > maxTime
        · simp [monitorAux, hq, ht] at hr
          subst hr; simpa [RawOut.iter] using hk
        · simp [monitorAux, hq, ht] at hr
      · simp [monitorAux, hq, hs] at hr
        subst hr; simpa [RawOut.iter] using hk
  | succ fuel ih =>
    intro k r hk hr
    cases hq : query k with
    | err e =>
      simp only [monitorAux, hq, Option.some.injEq] at hr
      subst hr; simpa [RawOut.iter] using hk
    | ok s =>
      by_cases hs : s = "InProgress"
      · subst hs
        by_cases ht : k * sleep > maxTime
        · simp [monitorAux, hq, ht] at hr
          subst hr; simpa [RawOut.iter] using hk
        · simp [monitorAux, hq, ht] at hr
          have hk1 : (k + 1) * sleep ≤ maxTime + sleep := by
            have hle : k * sleep ≤ maxTime := by omega
            have : (k + 1) * sleep = k * sleep + sleep := by ring
            omega
          exact ih (k + 1) r hk1 hr
      · simp [monitorAux, hq, hs] at hr
        subst hr; simpa [RawOut.iter] using hk

/-- The vgFinish classification preserves the loop status string, sleep
count and query count. -/
theorem vgFinish_fields (s3loc : String) (r : RawOut) :
    (vgFinish s3loc r).status = r.statusStr ∧
    (vgFinish s3loc r).sleeps = r.iter ∧
    (vgFinish s3loc r).queries = r.iter + 1 := by
  cases r <;> simp [vgFinish, RawOut.statusStr, RawOut.iter]

/-! ## MediaConvert job waiter (AudioVideoMergerFunction.py lines 55-83) -/

/-- Result of one get_job query against the MediaConvert API: a status
string with an optional ErrorMessage field, or a raised exception. -/
inductive MCResp where
  | ok (status : String) (errMsg : Option String)
  | exn (msg : String)
deriving DecidableEq

/-- Externally observable event of the waiter: a poll (recording the
observed status, none when the query raised) or a sleep of some seconds. -/
inductive MCEvent where
  | poll (status : Option String)
  | sleep (secs : Nat)
deriving DecidableEq

/-- Result of wait_for_mediaconvert_job: the (success, error) pair it
returns, together with the trace of polls and sleeps it performed. -/
structure MCRes where
  success : Bool
  errMsg : Option String
  trace : List MCEvent
deriving DecidableEq

/-- The attempt loop of wait_for_mediaconvert_job.  The first argument of
the recursion is the number of remaining attempts (maxAttempts - attempt),
the second the current attempt index.  COMPLETE sleeps 15 seconds and
returns success; ERROR and CANCELED return failure with the error message
(defaulting to "Unknown error"); any other status sleeps the delay and
polls again; a query exception is fatal only on the final attempt. -/
def waitMCAux (query : Nat → MCResp) (maxAttempts delay : Nat) :
    Nat → Nat → MCRes
  | 0, _ => ⟨false, some ("Timeout waiting for MediaConvert job"), []⟩
  | rem + 1, attempt =>
    match query attempt with
    | MCResp.ok s em =>
      if s = "COMPLETE" then ⟨true, none, [MCEvent.poll (some s), MCEvent.sleep 15]⟩
      else if s = "ERROR" ∨ s = "CANCELED" then
        ⟨false, some (em.getD ("Unknown error")), [MCEvent.poll (some s)]⟩
      else
        let r := waitMCAux query maxAttempts delay rem (attempt + 1)
        ⟨r.success, r.errMsg, MCEvent.poll (some s) :: MCEvent.sleep delay :: r.trace⟩
    | MCResp.exn e =>
      if attempt = maxAttempts - 1 then ⟨false, some e, [MCEvent.poll none]⟩
      else
        let r := waitMCAux query maxAttempts delay rem (attempt + 1)
        ⟨r.success, r.errMsg, MCEvent.poll none :: MCEvent.sleep delay :: r.trace⟩

/-- wait_for_mediaconvert_job from AudioVideoMergerFunction.py lines 55-83
(the source fixes maxAttempts = 30 and delay = 10 at the call site). -/
def wait_for_mediaconvert_job (query : Nat → MCResp) (maxAttempts delay : Nat) : MCRes :=
  waitMCAux query maxAttempts delay maxAttempts 0

/-- Number of status polls recorded in a trace. -/
def countPolls (t : List MCEvent) : Nat :=
  t.countP (fun e => match e with | MCEvent.poll _ => true | MCEvent.sleep _ => false)

/-- As long as at least one attempt remains, the waiter issues at least one
poll. -/
theorem waitMCAux_polls_pos (query : Nat → MCResp) (maxAttempts delay : Nat) :
    ∀ fuel attempt, 0 < fuel →
      1 ≤ countPolls (waitMCAux query maxAttempts delay fuel attempt).trace := by
  intro fuel attempt hf
  match fuel, hf with
  | rem + 1, _ =>
    cases hq : query attempt with
    | ok s em =>
      by_cases h1 : s = "COMPLETE"
      · simp [waitMCAux, hq, h1, countPolls]
      · by_cases h2 : s = "ERROR" ∨ s = "CANCELED"
        · simp [waitMCAux, hq, h1, h2, countPolls]
        · simp [waitMCAux, hq, h1, h2, countPolls]
    | exn e =>
      by_cases h1 : attempt = maxAttempts - 1
      · subst h1
        simp [waitMCAux, hq, countPolls]
      · simp [waitMCAux, hq, h1, countPolls]

/-- countPolls of a trace beginning with a poll. -/
theorem countPolls_poll_cons (s : Option String) (t : List MCEvent) :
    countPolls (MCEvent.poll s :: t) = countPolls t + 1 := by
  simp [countPolls, List.countP_cons]

/-- countPolls of a trace beginning with a sleep. -/
theorem countPolls_sleep_cons (n : Nat) (t : List MCEvent) :
    countPolls (MCEvent.sleep n :: t) = countPolls t := by
  simp [countPolls, List.countP_cons]

/-- One unfolding step of the waiter on a non-terminal status. -/
theorem waitMCAux_continue (query : Nat → MCResp) (M d rem attempt : Nat)
    (ms : String) (em : Option String)
    (hq : query attempt = MCResp.ok ms em)
    (h1 : ms ≠ "COMPLETE") (h2 : ¬(ms = "ERROR" ∨ ms = "CANCELED")) :
    waitMCAux query M d (rem + 1) attempt =
      ⟨(waitMCAux query M d rem (attempt + 1)).success,
       (waitMCAux query M d rem (attempt + 1)).errMsg,
       MCEvent.poll (some ms) :: MCEvent.sleep d ::
         (waitMCAux query M d rem (attempt + 1)).trace⟩ := by
  simp only [waitMCAux, hq, if_neg h1, if_neg h2]

/-- One unfolding step of the waiter on a non-final query exception. -/
theorem waitMCAux_exn_continue (query : Nat → MCResp) (M d rem attempt : Nat)
    (e : String) (hq : query attempt = MCResp.exn e) (hne : ¬(attempt = M - 1)) :
    waitMCAux query M d (rem + 1) attempt =
      ⟨(waitMCAux query M d rem (attempt + 1)).success,
       (waitMCAux query M d rem (attempt + 1)).errMsg,
       MCEvent.poll none :: MCEvent.sleep d ::
         (waitMCAux query M d rem (attempt + 1)).trace⟩ := by
  simp only [waitMCAux, hq, if_neg hne]

/-- The waiter on an observed COMPLETE status. -/
theorem waitMCAux_complete (query : Nat → MCResp) (M d rem attempt : Nat)
    (em : Option String) (hq : query attempt = MCResp.ok ("COMPLETE") em) :
    waitMCAux query M d (rem + 1) attempt =
      ⟨true, none, [MCEvent.poll (some ("COMPLETE")), MCEvent.sleep 15]⟩ := by
  simp [waitMCAux, hq]

/-! ## Concrete oracle sequences used by the claim theorems -/

/-- Bedrock status sequence InProgress, InProgress, Completed. -/
def ipSeq3 : Nat → QueryResult := fun k =>
  if k = 0 then QueryResult.ok ("InProgress")
  else if k = 1 then QueryResult.ok ("InProgress")
  else QueryResult.ok ("Completed")

/-- MediaConvert status sequence PROGRESSING, PROGRESSING, COMPLETE. -/
def mcSeq3 : Nat → MCResp := fun k =>
  if k = 0 then MCResp.ok ("PROGRESSING") none
  else if k = 1 then MCResp.ok ("PROGRESSING") none
  else MCResp.ok ("COMPLETE") none

/-- MediaConvert query that always reports a status outside the known
terminal and in-progress sets. -/
def mcUnknown : Nat → MCResp := fun _ => MCResp.ok ("UNKNOWN_STATUS") none

/-- Bedrock query that raises on the first poll and reports Completed on
every later poll. -/
def c4Query : Nat → QueryResult := fun k =>
  if k = 0 then QueryResult.err ("simulated transient failure")
  else QueryResult.ok ("Completed")

/-! ## Claim C1 -/

/-- Claim C1, counterexample: wait_for_mediaconvert_job keeps an allow-list
of terminal states.  On a job whose status query constantly returns the
unknown, non-in-progress status UNKNOWN_STATUS, the waiter does not end
polling immediately: it polls all 30 allowed attempts and then reports a
timeout, refuting the claim that every non-in-progress status ends the loop
at once. -/
theorem c1_counterexample :
    (wait_for_mediaconvert_job mcUnknown 30 10).success = false ∧
    (wait_for_mediaconvert_job mcUnknown 30 10).errMsg =
      some ("Timeout waiting for MediaConvert job") ∧
    countPolls (wait_for_mediaconvert_job mcUnknown 30 10).trace = 30 ∧
    1 < countPolls (wait_for_mediaconvert_job mcUnknown 30 10).trace := by
  refine ⟨rfl, rfl, rfl, ?_⟩
  decide

/-- Claim C1, amended: the Bedrock video monitor (monitor_video_generation)
treats any status other than InProgress as terminal and ends the loop on
the very first such poll with no further sleeps; wait_for_mediaconvert_job
instead treats only COMPLETE, ERROR and CANCELED as terminal and keeps
polling (at least one further query) on any other status value. -/
theorem c1_amended (query : Nat → QueryResult) (mq : Nat → MCResp)
    (maxTime sleep m d : Nat) (s ms : String) (em : Option String)
    (arn bucket : String)
    (hs : s ≠ "InProgress") (h0 : query 0 = QueryResult.ok s)
    (hm : 2 ≤ m) (hm0 : mq 0 = MCResp.ok ms em)
    (hms1 : ms ≠ "COMPLETE") (hms2 : ms ≠ "ERROR") (hms3 : ms ≠ "CANCELED") :
    (∃ r, monitor_video_generation query maxTime sleep arn bucket = some r ∧
      r.status = s ∧ r.queries = 1 ∧ r.sleeps = 0) ∧
    2 ≤ countPolls (wait_for_mediaconvert_job mq m d).trace := by
  constructor
  · refine ⟨vgFinish ("s3://" ++ bucket ++ "/" ++ jobIdOfArn arn)
      (RawOut.terminal s 0), ?_, ?_, ?_, ?_⟩
    · simp [monitor_video_generation, monitorAux, h0, hs]
    · simp [vgFinish]
    · simp [vgFinish]
    · simp [vgFinish]
  · obtain ⟨m2, rfl⟩ : ∃ m2, m = m2 + 2 := ⟨m - 2, by omega⟩
    have hne : ¬(ms = "ERROR" ∨ ms = "CANCELED") := by
      intro hcon
      cases hcon with
      | inl h => exact hms2 h
      | inr h => exact hms3 h
    have hrec := waitMCAux_polls_pos mq ((m2 + 1) + 1) d (m2 + 1) (0 + 1) (by omega)
    show 2 ≤ countPolls (waitMCAux mq (m2 + 2) d (m2 + 2) 0).trace
    rw [show m2 + 2 = (m2 + 1) + 1 from rfl,
        waitMCAux_continue mq ((m2 + 1) + 1) d (m2 + 1) 0 ms em hm0 hms1 hne]
    show 2 ≤ countPolls (MCEvent.poll (some ms) :: MCEvent.sleep d ::
      (waitMCAux mq ((m2 + 1) + 1) d (m2 + 1) (0 + 1)).trace)
    rw [countPolls_poll_cons, countPolls_sleep_cons]
    omega

/-- Claim C1, witness for the amended theorem at concrete inputs. -/
theorem c1_amended_witness :
    (∃ r, monitor_video_generation (fun _ => QueryResult.ok ("Failed")) 900 15
        ("arn/j1") ("bkt") = some r ∧
      r.status = "Failed" ∧ r.queries = 1 ∧ r.sleeps = 0) ∧
    2 ≤ countPolls (wait_for_mediaconvert_job
        (fun _ => MCResp.ok ("SUBMITTED") none) 30 10).trace :=
  c1_amended (fun _ => QueryResult.ok ("Failed"))
    (fun _ => MCResp.ok ("SUBMITTED") none) 900 15 30 10 ("Failed") ("SUBMITTED")
    none ("arn/j1") ("bkt") (by decide) rfl (by omega) rfl
    (by decide) (by decide) (by decide)

/-! ## Claim C2 -/

/-- Claim C2: one call to the Bedrock video monitor produces exactly one
terminal classification: the monitor terminates and returns a single result
(the fuel bound is never reached), the reported status is never the
still-waiting sentinel InProgress, and the total slept time never exceeds
the configured ceiling by more than one poll interval. -/
theorem c2_monitor_exactly_one_terminal (query : Nat → QueryResult)
    (maxTime sleep : Nat) (arn bucket : String) (hsl : 0 < sleep) :
    ∃ r, monitor_video_generation query maxTime sleep arn bucket = some r ∧
      r.status ≠ "InProgress" ∧ r.sleeps * sleep ≤ maxTime + sleep := by
  have hmul : (maxTime + 1) * 1 ≤ (maxTime + 1) * sleep :=
    Nat.mul_le_mul_left (maxTime + 1) hsl
  have hlt : maxTime < (0 + (maxTime + 1)) * sleep := by
    simp only [Nat.zero_add]
    omega
  have hsome := monitorAux_isSome query maxTime sleep (maxTime + 1) 0 hlt
  obtain ⟨r0, hr0⟩ := Option.isSome_iff_exists.mp hsome
  refine ⟨vgFinish ("s3://" ++ bucket ++ "/" ++ jobIdOfArn arn) r0, ?_, ?_, ?_⟩
  · simp [monitor_video_generation, hr0]
  · rw [(vgFinish_fields _ r0).1]
    exact monitorAux_not_inprogress query maxTime sleep _ 0 r0 hr0
  · rw [(vgFinish_fields _ r0).2.1]
    exact monitorAux_iter_bound query maxTime sleep _ 0 r0 (by simp) hr0

/-- Claim C2, witness at a concrete query sequence. -/
theorem c2_witness :
    ∃ r, monitor_video_generation (fun _ => QueryResult.ok ("Completed")) 900 15
        ("arn/j1") ("story-video-output") = some r ∧
      r.status ≠ "InProgress" ∧ r.sleeps * 15 ≤ 900 + 15 :=
  c2_monitor_exactly_one_terminal (fun _ => QueryResult.ok ("Completed"))
    900 15 ("arn/j1") ("story-video-output") (by decide)

/-! ## Claim C3 -/

/-- Claim C3: on a status sequence that never leaves InProgress, with
maxWait = 30 and pollInterval = 15, the monitor returns the Timeout outcome
after 4 queries and 3 sleeps and then stops polling; the total slept time
3 * 15 = 45 seconds never exceeds maxWait + pollInterval = 45. -/
theorem c3_timeout_bound (query : Nat → QueryResult) (arn bucket : String)
    (hq : ∀ k, query k = QueryResult.ok ("InProgress")) :
    monitor_video_generation query 30 15 arn bucket =
      some ⟨"Timeout", some ("s3://" ++ bucket ++ "/" ++ jobIdOfArn arn), 4, 3⟩ ∧
    3 * 15 ≤ 30 + 15 := by
  have hfq : query = fun _ => QueryResult.ok ("InProgress") := funext hq
  subst hfq
  exact ⟨rfl, by norm_num⟩

/-- Claim C3, witness at a concrete query sequence. -/
theorem c3_witness :
    monitor_video_generation (fun _ => QueryResult.ok ("InProgress")) 30 15
        ("arn/j1") ("bkt") =
      some ⟨"Timeout", some ("s3://" ++ "bkt" ++ "/" ++ jobIdOfArn ("arn/j1")), 4, 3⟩ ∧
    3 * 15 ≤ 30 + 15 :=
  c3_timeout_bound (fun _ => QueryResult.ok ("InProgress")) ("arn/j1") ("bkt")
    (fun _ => rfl)

/-! ## Claim C4 -/

/-- Claim C4, counterexample: in the Bedrock video monitor a single failed
status query aborts monitoring immediately.  With a query that raises on
the first poll and would report Completed on the second, the monitor
returns the terminal Error outcome after exactly one query, so the failure
is surfaced even though a valid terminal status was one poll away. -/
theorem c4_counterexample :
    monitor_video_generation c4Query 900 15 ("arn/j1") ("bkt") =
      some ⟨"Error", some ("s3://bkt/j1"), 1, 0⟩ ∧
    c4Query 1 = QueryResult.ok ("Completed") :=
  ⟨rfl, rfl⟩

/-- Claim C4, amended: in wait_for_mediaconvert_job a single failed status
query is retried on the next scheduled poll and is not surfaced when a
valid terminal status arrives there, while a failure on the final allowed
attempt yields a failure result carrying the exception text; in the
Bedrock video monitor any single query failure immediately ends monitoring
with the terminal Error outcome, with no retry. -/
theorem c4_amended (mq mq2 : Nat → MCResp) (query : Nat → QueryResult)
    (m d maxTime sleep : Nat) (e e2 e3 : String) (em : Option String)
    (arn bucket : String)
    (hm : 2 ≤ m)
    (h0 : mq 0 = MCResp.exn e) (h1 : mq 1 = MCResp.ok ("COMPLETE") em)
    (h20 : mq2 0 = MCResp.exn e2)
    (hq0 : query 0 = QueryResult.err e3) :
    wait_for_mediaconvert_job mq m d =
      ⟨true, none, [MCEvent.poll none, MCEvent.sleep d,
                    MCEvent.poll (some ("COMPLETE")), MCEvent.sleep 15]⟩ ∧
    wait_for_mediaconvert_job mq2 1 d = ⟨false, some e2, [MCEvent.poll none]⟩ ∧
    (∃ r, monitor_video_generation query maxTime sleep arn bucket = some r ∧
      r.status = "Error" ∧ r.queries = 1) := by
  refine ⟨?_, ?_, ?_⟩
  · obtain ⟨m2, rfl⟩ : ∃ m2, m = m2 + 2 := ⟨m - 2, by omega⟩
    show waitMCAux mq (m2 + 2) d (m2 + 2) 0 = _
    rw [show m2 + 2 = (m2 + 1) + 1 from rfl,
        waitMCAux_exn_continue mq ((m2 + 1) + 1) d (m2 + 1) 0 e h0 (by omega),
        waitMCAux_complete mq ((m2 + 1) + 1) d m2 (0 + 1) em h1]
  · show waitMCAux mq2 1 d 1 0 = _
    simp [waitMCAux, h20]
  · refine ⟨vgFinish ("s3://" ++ bucket ++ "/" ++ jobIdOfArn arn)
      (RawOut.error e3 0), ?_, ?_, ?_⟩
    · simp [monitor_video_generation, monitorAux, hq0]
    · simp [vgFinish]
    · simp [vgFinish]

/-- Claim C4, witness for the amended theorem at concrete inputs. -/
theorem c4_amended_witness :
    wait_for_mediaconvert_job
        (fun k => if k = 0 then MCResp.exn ("blip") else MCResp.ok ("COMPLETE") none)
        30 10 =
      ⟨true, none, [MCEvent.poll none, MCEvent.sleep 10,
                    MCEvent.poll (some ("COMPLETE")), MCEvent.sleep 15]⟩ ∧
    wait_for_mediaconvert_job (fun _ => MCResp.exn ("fatal")) 1 10 =
      ⟨false, some ("fatal"), [MCEvent.poll none]⟩ ∧
    (∃ r, monitor_video_generation (fun _ => QueryResult.err ("boom")) 900 15
        ("arn/j1") ("bkt") = some r ∧ r.status = "Error" ∧ r.queries = 1) :=
  c4_amended
    (fun k => if k = 0 then MCResp.exn ("blip") else MCResp.ok ("COMPLETE") none)
    (fun _ => MCResp.exn ("fatal")) (fun _ => QueryResult.err ("boom"))
    30 10 900 15 ("blip") ("fatal") ("boom") none ("arn/j1") ("bkt")
    (by omega) rfl rfl rfl rfl

/-! ## Claim C7 -/

/-- Claim C7, counterexample: on the status sequence PROGRESSING,
PROGRESSING, COMPLETE, wait_for_mediaconvert_job does poll exactly 3 times
and reports success, but it sleeps 15 seconds after observing the terminal
COMPLETE status: the final trace event is a sleep that follows the terminal
poll, refuting the claim that the monitor does not sleep after the terminal
status. -/
theorem c7_counterexample :
    (wait_for_mediaconvert_job mcSeq3 30 10).trace =
      [MCEvent.poll (some ("PROGRESSING")), MCEvent.sleep 10,
       MCEvent.poll (some ("PROGRESSING")), MCEvent.sleep 10,
       MCEvent.poll (some ("COMPLETE")), MCEvent.sleep 15] ∧
    (wait_for_mediaconvert_job mcSeq3 30 10).success = true ∧
    (wait_for_mediaconvert_job mcSeq3 30 10).trace.getLastD (MCEvent.poll none) =
      MCEvent.sleep 15 :=
  ⟨rfl, rfl, rfl⟩

/-- Claim C7, amended: on the sequence InProgress, InProgress, Completed
the Bedrock video monitor issues exactly 3 queries, returns the Completed
outcome and performs only the 2 sleeps that precede the terminal poll, so
it does not sleep after the terminal status; wait_for_mediaconvert_job on
PROGRESSING, PROGRESSING, COMPLETE also polls exactly 3 times and reports
success but additionally sleeps 15 seconds after the terminal status. -/
theorem c7_amended (arn bucket : String) :
    monitor_video_generation ipSeq3 900 15 arn bucket =
      some ⟨"Completed",
            some ("s3://" ++ bucket ++ "/" ++ jobIdOfArn arn ++ "/output.mp4"),
            3, 2⟩ ∧
    countPolls (wait_for_mediaconvert_job mcSeq3 30 10).trace = 3 ∧
    (wait_for_mediaconvert_job mcSeq3 30 10).success = true ∧
    (wait_for_mediaconvert_job mcSeq3 30 10).trace.getLastD (MCEvent.poll none) =
      MCEvent.sleep 15 :=
  ⟨rfl, rfl, rfl, rfl⟩

/-! ## Artifact Locator (AudioVideoMergerFunction.py verify_file_exists, lines 27-53) -/

/-- Whether a string ends in ".mp4", computed on the character list so that
it evaluates inside the kernel (Python key.endswith(".mp4")). -/
def endsWithMp4 (s : String) : Bool :=
  match s.data.reverse with
  | '4' :: 'p' :: 'm' :: '.' :: _ => true
  | _ => false

/-- Python key[:-4]: the string without its last four characters. -/
def dropLast4 (s : String) : String := String.mk ((s.data.reverse.drop 4).reverse)

/-- The candidate key list paths_to_check of verify_file_exists: the
original key, the key with ".mp4" appended, and (when the key already ends
in ".mp4") the key with the extension stripped, otherwise the key with
".mp4" appended again. -/
def pathsToCheck (key : String) : List String :=
  [key, key ++ (".mp4"), if endsWithMp4 key then dropLast4 key else key ++ (".mp4")]

/-- The per-candidate attempt loop of verify_file_exists: up to the given
number of remaining attempts, check existence of the path; on success stop
with that path recorded; on failure record the check, sleep unless this was
the final attempt, and retry.  Returns (found, list of performed checks as
(path, attempt) pairs, number of sleeps). -/
def tryPathAux (oracle : String → Nat → Bool) (p : String) (maxAttempts : Nat) :
    Nat → Nat → Bool × List (String × Nat) × Nat
  | 0, _ => (false, [], 0)
  | rem + 1, attempt =>
    if oracle p attempt then (true, [(p, attempt)], 0)
    else
      let r := tryPathAux oracle p maxAttempts rem (attempt + 1)
      (r.1, (p, attempt) :: r.2.1, (if attempt = maxAttempts - 1 then 0 else 1) + r.2.2)

/-- Result of verify_file_exists: the (found, path) pair it returns,
together with the existence checks performed and the sleeps taken. -/
structure VFRes where
  found : Bool
  path : Option String
  checks : List (String × Nat)
  sleeps : Nat
deriving DecidableEq

/-- The outer candidate loop of verify_file_exists: candidates are tried in
order, the first candidate whose attempt loop succeeds short-circuits the
whole search; if none succeeds the result is (False, None). -/
def verifyAux (oracle : String → Nat → Bool) (maxAttempts : Nat) :
    List String → VFRes
  | [] => ⟨false, none, [], 0⟩
  | p :: ps =>
    let t := tryPathAux oracle p maxAttempts maxAttempts 0
    if t.1 then ⟨true, some p, t.2.1, t.2.2⟩
    else
      let r := verifyAux oracle maxAttempts ps
      ⟨r.found, r.path, t.2.1 ++ r.checks, t.2.2 + r.sleeps⟩

/-- verify_file_exists from AudioVideoMergerFunction.py lines 27-53,
parametrised by the existence oracle (bucket is fixed; the oracle maps a
candidate key and attempt index to the outcome of the head_object call). -/
def verify_file_exists (oracle : String → Nat → Bool) (key : String)
    (maxAttempts : Nat) : VFRes :=
  verifyAux oracle maxAttempts (pathsToCheck key)

/-- On a candidate that never exists, the attempt loop performs exactly the
attempts att, att+1, ... up to the remaining count, fails, and sleeps after
every attempt except the final one. -/
theorem tryPathAux_all_false (oracle : String → Nat → Bool) (p : String)
    (maxAttempts : Nat) (h : ∀ a, oracle p a = false) :
    ∀ rem att, tryPathAux oracle p maxAttempts rem att =
      (false, (List.range' att rem).map (fun a => (p, a)),
       ((List.range' att rem).filter (fun a => !(a = maxAttempts - 1))).length) := by
  intro rem
  induction rem with
  | zero => intro att; simp [tryPathAux]
  | succ rem ih =>
    intro att
    rw [List.range'_succ]
    simp only [tryPathAux, h att, if_false, ih (att + 1), List.map_cons,
      List.filter_cons]
    by_cases hat : att = maxAttempts - 1
    · simp [hat]
    · simp [hat]
      omega

/-- Every check performed by the attempt loop is on its own candidate and
below the attempt window. -/
theorem tryPathAux_checks (oracle : String → Nat → Bool) (p : String)
    (maxAttempts : Nat) :
    ∀ rem att pa, pa ∈ (tryPathAux oracle p maxAttempts rem att).2.1 →
      pa.1 = p ∧ pa.2 < att + rem := by
  intro rem
  induction rem with
  | zero => intro att pa hpa; simp [tryPathAux] at hpa
  | succ rem ih =>
    intro att pa hpa
    by_cases ho : oracle p att
    · simp [tryPathAux, ho] at hpa
      subst hpa; exact ⟨rfl, by omega⟩
    · simp [tryPathAux, ho] at hpa
      rcases hpa with h1 | h1
      · subst h1; exact ⟨rfl, by omega⟩
      · obtain ⟨h2, h3⟩ := ih (att + 1) pa h1
        exact ⟨h2, by omega⟩

/-- If no candidate ever exists, the locator reports not-found with no
path. -/
theorem verifyAux_all_false (oracle : String → Nat → Bool) (n : Nat)
    (h : ∀ p a, oracle p a = false) :
    ∀ ps, (verifyAux oracle n ps).found = false ∧
      (verifyAux oracle n ps).path = none := by
  intro ps
  induction ps with
  | nil => simp [verifyAux]
  | cons p ps ih =>
    have ht := tryPathAux_all_false oracle p n (h p) n 0
    simp [verifyAux, ht, ih]

/-- Every existence check performed by the locator is on one of the
candidate keys, with attempt index below the ceiling. -/
theorem verifyAux_checks (oracle : String → Nat → Bool) (n : Nat) :
    ∀ ps pa, pa ∈ (verifyAux oracle n ps).checks →
      pa.1 ∈ ps ∧ pa.2 < n := by
  intro ps
  induction ps with
  | nil => intro pa hpa; simp [verifyAux] at hpa
  | cons p ps ih =>
    intro pa hpa
    by_cases ht : (tryPathAux oracle p n n 0).1
    · simp [verifyAux, ht] at hpa
      obtain ⟨h1, h2⟩ := tryPathAux_checks oracle p n n 0 pa hpa
      exact ⟨by simp [h1], by omega⟩
    · simp [verifyAux, ht] at hpa
      rcases hpa with h1 | h1
      · obtain ⟨h2, h3⟩ := tryPathAux_checks oracle p n n 0 pa h1
        exact ⟨by simp [h2], by omega⟩
      · obtain ⟨h2, h3⟩ := ih pa h1
        exact ⟨by simp [h2], h3⟩

/-! ## Claim C5 -/

/-- Claim C5: the artifact locator checks candidates in order with at most
the attempt ceiling of existence checks per candidate; when the primary key
a/b never exists and the alternate a/b.mp4 exists, the locator succeeds
with a/b.mp4 after the 10 primary checks plus a single alternate check and
tries no further candidate; when no candidate ever exists it reports
not-found with no path; and every check it performs is on one of the
candidate keys with attempt index below the ceiling. -/
theorem c5_artifact_locator (oracle : String → Nat → Bool)
    (h1 : ∀ a, oracle ("a/b") a = false) (h2 : ∀ a, oracle ("a/b.mp4") a = true) :
    (verify_file_exists oracle ("a/b") 10 =
      ⟨true, some ("a/b.mp4"),
       (List.range' 0 10).map (fun a => (("a/b"), a)) ++ [(("a/b.mp4"), 0)], 9⟩) ∧
    (∀ oracle2 : String → Nat → Bool, ∀ key n,
      (∀ p a, oracle2 p a = false) →
      (verify_file_exists oracle2 key n).found = false ∧
      (verify_file_exists oracle2 key n).path = none) ∧
    (∀ oracle3 : String → Nat → Bool, ∀ key n pa,
      pa ∈ (verify_file_exists oracle3 key n).checks →
      pa.1 ∈ pathsToCheck key ∧ pa.2 < n) := by
  refine ⟨?_, ?_, ?_⟩
  · have hA := tryPathAux_all_false oracle ("a/b") 10 h1 10 0
    have hB : tryPathAux oracle ("a/b.mp4") 10 10 0 = (true, [(("a/b.mp4"), 0)], 0) := by
      show tryPathAux oracle ("a/b.mp4") 10 (9 + 1) 0 = _
      simp only [tryPathAux, h2 0, if_true]
    rw [show verify_file_exists oracle ("a/b") 10 =
          verifyAux oracle 10 [("a/b"), ("a/b.mp4"), ("a/b.mp4")] from rfl]
    simp only [verifyAux, hA, hB]
    decide
  · intro oracle2 key n h
    exact verifyAux_all_false oracle2 n h (pathsToCheck key)
  · intro oracle3 key n pa hpa
    exact verifyAux_checks oracle3 n (pathsToCheck key) pa hpa

/-- Claim C5, witness at a concrete oracle. -/
theorem c5_witness :
    verify_file_exists (fun p _ => p == ("a/b.mp4")) ("a/b") 10 =
      ⟨true, some ("a/b.mp4"),
       (List.range' 0 10).map (fun a => (("a/b"), a)) ++ [(("a/b.mp4"), 0)], 9⟩ :=
  (c5_artifact_locator (fun p _ => p == ("a/b.mp4"))
    (fun _ => rfl) (fun _ => rfl)).1

/-! ## Request handlers -/

/-- Python truthiness of an optional string field: absent and empty strings
are falsy. -/
def truthy : Option String → Bool
  | none => false
  | some s => !(s == "")

/-- External calls observable from the vg.py lambda handler. -/
inductive VgCall where
  | getScenes
  | submitJob
  | statusQuery
  | existsCheck
deriving DecidableEq

/-- Response of the vg.py handler: the returned dict has no statusCode
field on any path (modelled as an Option that the source never sets),
a status string, optional message / error / output_location fields, and
the trace of external calls made. -/
structure VgHRes where
  statusCode : Option Nat
  status : String
  message : Option String
  error : Option String
  output_location : Option String
  calls : List VgCall
deriving DecidableEq

/-- The vg.py handler (lines 16-109): validate story_id (a missing one
raises ValueError, caught by the outer handler which returns an error dict
with status Error and no statusCode), fetch scenes.json, submit the async
job, monitor it, and assemble the response; the Completed message is
attached solely on the basis of the monitor status, with no existence
check of the produced artifact. -/
def vg_handler (story_id : Option String) (scenes : Except String Unit)
    (submit : Except String String) (query : Nat → QueryResult)
    (bucket : String) : VgHRes :=
  if truthy story_id = false then
    ⟨none, "Error", none, some ("story_id is required"), none, []⟩
  else
    match scenes with
    | Except.error e => ⟨none, "Error", none, some e, none, [VgCall.getScenes]⟩
    | Except.ok _ =>
      match submit with
      | Except.error e =>
          ⟨none, "Error", none, some e, none, [VgCall.getScenes, VgCall.submitJob]⟩
      | Except.ok arn =>
        match monitor_video_generation query 900 15 arn bucket with
        | none => ⟨none, "Error", none, none, none, []⟩
        | some r =>
          ⟨none, r.status,
           some (if r.status = "Completed" then "Video generation completed successfully"
                 else if r.status = "Failed" then "Video generation failed"
                 else if r.status = "Timeout" then "Video generation monitoring timed out"
                 else "Video generation status: " ++ r.status),
           none, r.output,
           [VgCall.getScenes, VgCall.submitJob] ++
             List.replicate r.queries VgCall.statusQuery⟩

/-- The vg.py handler performs no artifact existence check on any path. -/
theorem vg_handler_no_exists_check (sid : Option String) (sc : Except String Unit)
    (sub : Except String String) (q : Nat → QueryResult) (b : String) :
    VgCall.existsCheck ∉ (vg_handler sid sc sub q b).calls := by
  intro hmem
  unfold vg_handler at hmem
  split at hmem
  · simp at hmem
  · split at hmem
    · simp at hmem
    · split at hmem
      · simp at hmem
      · split at hmem
        · simp at hmem
        · simp [List.mem_append, List.mem_replicate] at hmem

/-- External calls observable from the story-video-generator.py handler. -/
inductive SvgCall where
  | submitJob
  | statusQuery
  | existsCheck
deriving DecidableEq

/-- Response of the story-video-generator.py handler. -/
structure SvgRes where
  statusCode : Nat
  message : String
  calls : List SvgCall
deriving DecidableEq

/-- lambda_handler from story-video-generator.py lines 141-186: build the
model input, submit the async invocation, and immediately return 200 with
a success message; no monitoring and no artifact verification happen. -/
def svg_lambda_handler (modelInput : Except String Unit)
    (submit : Except String String) : SvgRes :=
  match modelInput with
  | Except.error e => ⟨500, e, []⟩
  | Except.ok _ =>
    match submit with
    | Except.error e => ⟨500, e, [SvgCall.submitJob]⟩
    | Except.ok _ => ⟨200, "Video generation started successfully", [SvgCall.submitJob]⟩

/-! ## Claim C6 -/

/-- Claim C6: the code reports success without confirming the artifact.
When the vg.py monitor reports Completed, the handler returns the success
message and output location having performed no existence check; and
story-video-generator.py returns 200 with a started-successfully message
on submission alone, with neither a status query nor an existence check.
This evaluates the code at the failing inputs of the code_bug record; the
universally quantified conjunct shows the vg.py handler never checks
existence on any input. -/
theorem c6_success_without_verification :
    (vg_handler (some ("s1")) (Except.ok ()) (Except.ok ("arn/j7"))
        (fun _ => QueryResult.ok ("Completed")) ("bkt")).message =
      some ("Video generation completed successfully") ∧
    (vg_handler (some ("s1")) (Except.ok ()) (Except.ok ("arn/j7"))
        (fun _ => QueryResult.ok ("Completed")) ("bkt")).output_location =
      some ("s3://bkt/j7/output.mp4") ∧
    (∀ sid sc sub q b, VgCall.existsCheck ∉ (vg_handler sid sc sub q b).calls) ∧
    (svg_lambda_handler (Except.ok ()) (Except.ok ("arn"))).statusCode = 200 ∧
    (svg_lambda_handler (Except.ok ()) (Except.ok ("arn"))).message =
      "Video generation started successfully" ∧
    SvgCall.existsCheck ∉ (svg_lambda_handler (Except.ok ()) (Except.ok ("arn"))).calls ∧
    SvgCall.statusQuery ∉ (svg_lambda_handler (Except.ok ()) (Except.ok ("arn"))).calls :=
  ⟨rfl, rfl, vg_handler_no_exists_check, by decide, rfl, by decide, by decide⟩

/-! ## Claim C8 -/

/-- Response of the AudioVideoMergerFunction.py handler front: statusCode,
message, and the number of jobs submitted before returning. -/
structure AVMRes where
  statusCode : Nat
  message : Option String
  submissions : Nat
deriving DecidableEq

/-- The validation at AudioVideoMergerFunction.py lines 204-215: if
story_id, polly_input or video_path is missing (falsy), return statusCode
400 with the Missing-required-parameters message and submit nothing;
otherwise continue with the rest of the handler. -/
def avm_lambda_handler_front (story_id polly_input video_path : Option String)
    (rest : AVMRes) : AVMRes :=
  if truthy story_id = false ∨ truthy polly_input = false ∨ truthy video_path = false then
    ⟨400, some ("Missing required parameters"), 0⟩
  else rest

/-- Response of the story-generator.py handler. -/
structure SGRes where
  statusCode : Nat
  body_error : Option String
deriving DecidableEq

/-- The validation in story-generator.py handler (lines 196-198 and the
except branch at lines 261-272): a missing topic raises ValueError, which
the outer except converts into a statusCode 500 response carrying the
error text; otherwise the rest of the handler runs. -/
def sg_handler (topic : Option String) (rest : SGRes) : SGRes :=
  if truthy topic = false then ⟨500, some ("Topic is required")⟩ else rest

/-- Claim C8, counterexample: a request to the story generator with the
required topic field missing is answered with statusCode 500, not 400. -/
theorem c8_counterexample :
    (sg_handler none ⟨200, none⟩).statusCode = 500 ∧
    (sg_handler none ⟨200, none⟩).statusCode ≠ 400 := by
  decide

/-- Claim C8, amended: a missing required field is surfaced immediately
with no job submitted, but the shape differs per handler: the audio-video
merger returns statusCode 400, the story generator returns statusCode 500
with the error text, and the vg.py handler returns an error object with
status Error and no statusCode field at all. -/
theorem c8_amended (sid pi vp topic sid2 : Option String)
    (restA : AVMRes) (restS : SGRes) (sc : Except String Unit)
    (sub : Except String String) (q : Nat → QueryResult) (b : String)
    (hA : truthy sid = false ∨ truthy pi = false ∨ truthy vp = false)
    (hS : truthy topic = false) (hV : truthy sid2 = false) :
    avm_lambda_handler_front sid pi vp restA =
      ⟨400, some ("Missing required parameters"), 0⟩ ∧
    sg_handler topic restS = ⟨500, some ("Topic is required")⟩ ∧
    (vg_handler sid2 sc sub q b).statusCode = none ∧
    (vg_handler sid2 sc sub q b).status = "Error" ∧
    (vg_handler sid2 sc sub q b).error = some ("story_id is required") ∧
    (vg_handler sid2 sc sub q b).calls = [] := by
  refine ⟨?_, ?_, ?_, ?_, ?_, ?_⟩
  · simp [avm_lambda_handler_front, hA]
  · simp [sg_handler, hS]
  · simp [vg_handler, hV]
  · simp [vg_handler, hV]
  · simp [vg_handler, hV]
  · simp [vg_handler, hV]

/-- Claim C8, witness for the amended theorem at concrete inputs. -/
theorem c8_amended_witness :
    avm_lambda_handler_front none (some ("hello")) (some ("s3://b/v.mp4"))
        ⟨200, none, 1⟩ =
      ⟨400, some ("Missing required parameters"), 0⟩ ∧
    sg_handler (some ("")) ⟨200, none⟩ = ⟨500, some ("Topic is required")⟩ ∧
    (vg_handler none (Except.ok ()) (Except.ok ("arn/j"))
        (fun _ => QueryResult.ok ("Completed")) ("bkt")).statusCode = none ∧
    (vg_handler none (Except.ok ()) (Except.ok ("arn/j"))
        (fun _ => QueryResult.ok ("Completed")) ("bkt")).status = "Error" ∧
    (vg_handler none (Except.ok ()) (Except.ok ("arn/j"))
        (fun _ => QueryResult.ok ("Completed")) ("bkt")).error =
      some ("story_id is required") ∧
    (vg_handler none (Except.ok ()) (Except.ok ("arn/j"))
        (fun _ => QueryResult.ok ("Completed")) ("bkt")).calls = [] :=
  c8_amended none (some ("hello")) (some ("s3://b/v.mp4")) (some ("")) none
    ⟨200, none, 1⟩ ⟨200, none⟩ (Except.ok ()) (Except.ok ("arn/j"))
    (fun _ => QueryResult.ok ("Completed")) ("bkt")
    (Or.inl rfl) rfl rfl

/-! ## Character-level embeddings of the Python string operations
(structurally recursive so they evaluate inside the kernel) -/

/-- Whether the first list is a prefix of the second. -/
def isPrefixOfChars : List Char → List Char → Bool
  | [], _ => true
  | _ :: _, [] => false
  | p :: ps, c :: cs => p = c && isPrefixOfChars ps cs

/-- Python s.startswith(p). -/
def strStartsWith (s p : String) : Bool := isPrefixOfChars p.data s.data

/-- Python s.endswith(p). -/
def strEndsWith (s p : String) : Bool :=
  isPrefixOfChars p.data.reverse s.data.reverse

/-- Python whitespace as recognised by str.strip. -/
def isPySpace (c : Char) : Bool :=
  c = ' ' || c = '\t' || c = '\n' || c = '\r' || c = '\x0b' || c = '\x0c'

/-- Python s.strip(). -/
def pyStrip (s : String) : String :=
  String.mk (((s.data.dropWhile isPySpace).reverse.dropWhile isPySpace).reverse)

/-- Left-to-right removal of every occurrence of a pattern, as Python
s.replace(pat, "").  The fuel is the length of the scanned list. -/
def replaceAux (pat : List Char) : Nat → List Char → List Char
  | _, [] => []
  | 0, l => l
  | fuel + 1, c :: cs =>
    if isPrefixOfChars pat (c :: cs) && !pat.isEmpty then
      replaceAux pat fuel ((c :: cs).drop pat.length)
    else c :: replaceAux pat fuel cs

/-- Python s.replace(pat, ""). -/
def pyReplace (s pat : String) : String :=
  String.mk (replaceAux pat.data s.data.length s.data)

/-- Python s.split(c) for a single-character separator, on the character
list (an empty input yields one empty field, as in Python). -/
def splitOnCharList (c : Char) : List Char → List (List Char)
  | [] => [[]]
  | x :: xs =>
    let r := splitOnCharList c xs
    if x = c then [] :: r
    else
      match r with
      | [] => [[x]]
      | h :: t => (x :: h) :: t

/-- Python s.split(".", 1): the characters before and after the first dot,
if there is one. -/
def splitFirstDot : List Char → Option (List Char × List Char)
  | [] => none
  | c :: cs =>
    if c = '.' then some ([], cs)
    else
      match splitFirstDot cs with
      | none => none
      | some p => some (c :: p.1, p.2)

/-- Python int(s): the numeric value when s is a nonempty digit string. -/
def digitsToNat (s : String) : Option Nat :=
  if !s.data.isEmpty && s.data.all (fun c => c.isDigit) then
    some (s.data.foldl (fun acc c => acc * 10 + (c.toNat - 48)) 0)
  else none

/-- Lexicographic comparison of character lists. -/
def leChars : List Char → List Char → Bool
  | [], _ => true
  | _ :: _, [] => false
  | a :: as, b :: bs => if a = b then leChars as bs else decide (a < b)

/-- Lexicographic comparison of strings, as Python uses for sorted(). -/
def leStr (a b : String) : Bool := leChars a.data b.data

/-- Stable insertion into a sorted list. -/
def insertSorted (x : String) : List String → List String
  | [] => [x]
  | y :: ys => if leStr x y then x :: y :: ys else y :: insertSorted x ys

/-- Python sorted() on a list of strings (stable insertion sort). -/
def sortStrings : List String → List String
  | [] => []
  | x :: xs => insertSorted x (sortStrings xs)

/-- Python "\n".join(parts). -/
def joinNl : List String → String
  | [] => ""
  | [x] => x
  | x :: xs => x ++ "\n" ++ joinNl xs

/-! ## Scene-text cleaning (story-video-final.py clean_scene_text, lines 39-66) -/

/-- clean_scene_text: an empty text stays empty; otherwise the text is
stripped, the markdown stars are removed (if this leaves the empty string,
the index access raises and the caught exception returns the current,
empty, text), then if the first character is a digit the part after the
first dot is kept, and the result is stripped again. -/
def clean_scene_text (text : String) : String :=
  if text == "" then ""
  else
    let t1 := pyReplace (pyStrip text) ("**")
    if t1 == "" then t1
    else
      let t2 :=
        if (t1.data.headD (' ')).isDigit then
          match splitFirstDot t1.data with
          | some p => String.mk p.2
          | none => t1
        else t1
      pyStrip t2

/-! ## Model-input construction (story-video-final.py get_model_input, lines 80-142) -/

/-- videoGenerationConfig of the submitted job spec. -/
structure VideoGenConfig where
  seed : Nat
  fps : Nat
  dimension : String
deriving DecidableEq

/-- One shot of the submitted job spec: cleaned text plus the optional
image uri. -/
structure Shot where
  text : String
  image : Option String
deriving DecidableEq

/-- The submitted job spec (model input). -/
structure ModelInput where
  taskType : String
  shots : List Shot
  config : VideoGenConfig
deriving DecidableEq

/-- The shot-building loop of get_model_input: for each selected key in
order, skip falsy values, parse the shot number from the key (a parse
failure raises, propagating out), clean the text and attach the image uri
when the scene image exists. -/
def buildShots (sourceBucket story_id : String) (sc : List (String × String))
    (imageExists : Nat → Bool) : List String → Except String (List Shot)
  | [] => Except.ok []
  | k :: ks =>
    let v := ((sc.find? (fun p => p.1 == k)).map Prod.snd).getD ("")
    if v == "" then buildShots sourceBucket story_id sc imageExists ks
    else
      match digitsToNat (pyReplace (pyReplace k ("shot")) ("_text")) with
      | none => Except.error ("invalid literal for int() with base 10")
      | some shot_num =>
        let shot : Shot :=
          ⟨clean_scene_text v,
           if imageExists shot_num then
             some ("s3://" ++ sourceBucket ++ "/" ++ story_id ++ "/scene_" ++
               Nat.repr shot_num ++ ".png")
           else none⟩
        match buildShots sourceBucket story_id sc imageExists ks with
        | Except.error e => Except.error e
        | Except.ok rest => Except.ok (shot :: rest)

/-- get_model_input from story-video-final.py lines 80-142: validate
story_id, load scenes.json (an oracle here), select and sort the
shotN_text keys, build the shots, and assemble the job spec whose seed is
the seed field of the event when present and otherwise a fresh RNG draw
(random.randint(0, 2147483648), the randDraw parameter). -/
def svf_get_model_input (sourceBucket : String) (event_story_id : Option String)
    (event_seed : Option Nat) (scenes : Except String (List (String × String)))
    (imageExists : Nat → Bool) (randDraw : Nat) : Except String ModelInput :=
  match event_story_id with
  | none => Except.error ("story_id is required in the event")
  | some story_id =>
    if story_id == "" then Except.error ("story_id is required in the event")
    else
      match scenes with
      | Except.error e => Except.error e
      | Except.ok sc =>
        let shot_keys := sortStrings ((sc.map Prod.fst).filter
          (fun k => strStartsWith k ("shot") && strEndsWith k ("_text")))
        match buildShots sourceBucket story_id sc imageExists shot_keys with
        | Except.error e => Except.error e
        | Except.ok shots =>
          if shots = [] then Except.error ("No valid shots found in scenes.json")
          else Except.ok ⟨"MULTI_SHOT_MANUAL", shots,
            ⟨event_seed.getD randDraw, 24, "1280x720"⟩⟩

/-! ## Claim C9 -/

/-- Claim C9, counterexample: with a fixed request payload that has no
seed field and a fixed scenes.json, two runs of get_model_input that see
different RNG draws submit different job specs, so the submitted job spec
is not reproducible from the payload and the mocked service responses
alone. -/
theorem c9_counterexample :
    svf_get_model_input ("story-story-images") (some ("s1")) none
        (Except.ok [(("shot1_text"), ("hello"))]) (fun _ => false) 0 ≠
      svf_get_model_input ("story-story-images") (some ("s1")) none
        (Except.ok [(("shot1_text"), ("hello"))]) (fun _ => false) 1 := by
  have h0 : svf_get_model_input ("story-story-images") (some ("s1")) none
      (Except.ok [(("shot1_text"), ("hello"))]) (fun _ => false) 0 =
      Except.ok ⟨"MULTI_SHOT_MANUAL", [⟨"hello", none⟩], ⟨0, 24, "1280x720"⟩⟩ := rfl
  have h1 : svf_get_model_input ("story-story-images") (some ("s1")) none
      (Except.ok [(("shot1_text"), ("hello"))]) (fun _ => false) 1 =
      Except.ok ⟨"MULTI_SHOT_MANUAL", [⟨"hello", none⟩], ⟨1, 24, "1280x720"⟩⟩ := rfl
  rw [h0, h1]
  intro h
  have h2 := Except.ok.inj h
  have hseed : (0 : Nat) = 1 := congrArg (fun m => m.config.seed) h2
  exact absurd hseed (by decide)

/-- Claim C9, amended: two runs of the pipeline on a fixed request payload
and fixed mocked service responses produce the same submitted job spec
provided the payload carries an explicit seed field; without it, the seed
of the spec is a fresh RNG draw and may differ between runs. -/
theorem c9_deterministic_with_seed (bucket : String) (sid : Option String)
    (s : Nat) (scenes : Except String (List (String × String)))
    (img : Nat → Bool) (r1 r2 : Nat) :
    svf_get_model_input bucket sid (some s) scenes img r1 =
      svf_get_model_input bucket sid (some s) scenes img r2 := by
  simp only [svf_get_model_input, Option.getD_some]

/-! ## Story-step generation (story-generator.py generate_story_steps, lines 43-93) -/

/-- The line-extraction loop: split the model text on newlines, strip each
line, and drop empty lines, markdown headers and scene-title lines. -/
def extractScenes (story_text : String) : List String :=
  ((splitOnCharList ('\n') story_text.data).map (fun l => pyStrip (String.mk l))).filter
    (fun l => !(l == "" || strStartsWith l ("###") || strStartsWith l ("Scene")))

/-- The default placeholder scenes used when the model call raises. -/
def defaultScenes (ui : String) : List String :=
  (List.range 5).map (fun i => "Scene " ++ Nat.repr (i + 1) ++ " about " ++ ui)

/-- Truncation to 5 scenes followed by the padding loop that appends
numbered placeholder scenes until 5 are present. -/
def pad5 (ui : String) (xs : List String) : List String :=
  xs ++ (List.range (5 - xs.length)).map
    (fun i => "Scene " ++ Nat.repr (xs.length + i + 1) ++ " about " ++ ui)

/-- Result of generate_story_steps: the scene list and the full text. -/
structure StoryData where
  scenes : List String
  full_text : String
deriving DecidableEq

/-- generate_story_steps from story-generator.py lines 43-93: on a model
response, extract the scene lines, truncate to 5 and pad to 5; when the
model call raises, fall back to the 5 default placeholder scenes. -/
def generate_story_steps (user_input : String) (model : Except String String) :
    StoryData :=
  match model with
  | Except.error _ =>
    ⟨defaultScenes user_input, joinNl (defaultScenes user_input)⟩
  | Except.ok story_text =>
    ⟨pad5 user_input ((extractScenes story_text).take 5), story_text⟩

/-- The enumeration underlying the scenes_data dict comprehension. -/
def scenesDataAux (i : Nat) : List String → List (String × String)
  | [] => []
  | sc :: ss => ("shot" ++ Nat.repr (i + 1) ++ "_text", sc) :: scenesDataAux (i + 1) ss

/-- The scenes.json content written by save_metadata_to_s3 (story-generator.py
lines 162-166): key shotN_text for the N-th scene. -/
def scenesData (scenes : List String) : List (String × String) :=
  scenesDataAux 0 scenes

/-- The downstream read in VideoGeneratorFunction.py lines 62-75: for i in
1..5, read scene_data[f"shot-i-_text"].strip(); a missing key raises
KeyError. -/
def readShotsAux (sceneData : List (String × String)) :
    List Nat → Except String (List String)
  | [] => Except.ok []
  | i :: is =>
    match sceneData.find? (fun p => p.1 == "shot" ++ Nat.repr i ++ "_text") with
    | none => Except.error ("KeyError")
    | some p =>
      match readShotsAux sceneData is with
      | Except.error e => Except.error e
      | Except.ok rest => Except.ok (pyStrip p.2 :: rest)

/-- The shots 1 through 5 that VideoGeneratorFunction.py reads. -/
def vgf_read_shots (sceneData : List (String × String)) :
    Except String (List String) :=
  readShotsAux sceneData [1, 2, 3, 4, 5]

/-- A list of length 5 has exactly five elements. -/
theorem list_eq_five (l : List String) (hl : l.length = 5) :
    ∃ a b c d e, l = [a, b, c, d, e] := by
  rcases l with _ | ⟨a, l⟩
  · simp at hl
  rcases l with _ | ⟨b, l⟩
  · simp at hl
  rcases l with _ | ⟨c, l⟩
  · simp at hl
  rcases l with _ | ⟨d, l⟩
  · simp at hl
  rcases l with _ | ⟨e, l⟩
  · simp at hl
  rcases l with _ | ⟨f, l⟩
  · exact ⟨a, b, c, d, e, rfl⟩
  · simp at hl

/-- Reading shots 1..5 from the scenes.json of any five scenes succeeds. -/
theorem vgf_read_shots_five (a b c d e : String) :
    vgf_read_shots (scenesData [a, b, c, d, e]) =
      Except.ok [pyStrip a, pyStrip b, pyStrip c, pyStrip d, pyStrip e] := rfl

/-! ## Claim C10 -/

/-- Claim C10: for every topic and every model response, including a
raising model call, generate_story_steps returns exactly 5 scenes; on a
successful response the first five extracted scene lines are kept verbatim
as the front of the list (truncation), on a raising call the scenes are
the default placeholders, and the downstream reader that demands keys
shot1_text through shot5_text always succeeds on the scenes.json written
from the result. -/
theorem c10_exactly_five_scenes (ui : String) (model : Except String String) :
    (generate_story_steps ui model).scenes.length = 5 ∧
    (∀ text, model = Except.ok text →
      (generate_story_steps ui model).scenes.take ((extractScenes text).take 5).length =
        (extractScenes text).take 5) ∧
    (∀ e, model = Except.error e →
      (generate_story_steps ui model).scenes = defaultScenes ui) ∧
    (∃ l, vgf_read_shots (scenesData (generate_story_steps ui model).scenes) =
      Except.ok l) := by
  have hlen : (generate_story_steps ui model).scenes.length = 5 := by
    cases model with
    | error e => simp [generate_story_steps, defaultScenes]
    | ok t =>
      simp only [generate_story_steps, pad5, List.length_append,
        List.length_map, List.length_range, List.length_take]
      omega
  refine ⟨hlen, ?_, ?_, ?_⟩
  · intro text hm
    subst hm
    simp only [generate_story_steps, pad5]
    rw [List.take_left]
  · intro e hm
    subst hm
    rfl
  · obtain ⟨a, b, c, d, e, hsc⟩ := list_eq_five _ hlen
    rw [hsc]
    exact ⟨[pyStrip a, pyStrip b, pyStrip c, pyStrip d, pyStrip e],
      vgf_read_shots_five a b c d e⟩

/-- Claim C10, witness: the theorem applied to a successful model response
and to a raising one, with the implication hypotheses discharged. -/
theorem c10_witness :
    (generate_story_steps ("dragons") (Except.ok ("a\nb\nc\nd\ne\nf"))).scenes.take
        ((extractScenes ("a\nb\nc\nd\ne\nf")).take 5).length =
      (extractScenes ("a\nb\nc\nd\ne\nf")).take 5 ∧
    (generate_story_steps ("dragons") (Except.error ("boom"))).scenes =
      defaultScenes ("dragons") :=
  ⟨(c10_exactly_five_scenes ("dragons") (Except.ok ("a\nb\nc\nd\ne\nf"))).2.1
      ("a\nb\nc\nd\ne\nf") rfl,
   (c10_exactly_five_scenes ("dragons") (Except.error ("boom"))).2.2.1 ("boom") rfl⟩
